import Mathlib

/-!
Verification of the Lavalink websocket client of this repository
(`src/wavelink/websocket.py`, class `WebSocket`).

The embedding translates the Python source into executable Lean
definitions:

* `Frame` models the decoded JSON object handed to `process_data`
  (only the fields the dispatcher reads: `op`, `guildId`, `type`).
* `NodeState` models the `Node` fields the websocket code touches:
  the `players` mapping (guild id to an abstract per-player state),
  the cached `stats`, and the `available` flag.
* `WSState` models the mutable fields of the `WebSocket` object:
  `_websocket` (an optional connection handle with a `closed` flag),
  `_last_exc`, `_task` (whether the pump task handle is set),
  `_closed`, and the node availability, plus the `auto_reconnect`
  configuration flag.
* Exceptions are modelled with `Except`; `Exc` distinguishes the
  exception classes the dispatcher's `try/except` clauses branch on.
* `bot.dispatch(...)` is modelled by returning the list of emitted
  notifications; log/print output of `_connect` is returned as
  `LogLine`s.
-/

namespace Wavelink

/-- Decidable equality for `Except`, used to evaluate the embedding on
concrete inputs. -/
instance {ε α : Type} [DecidableEq ε] [DecidableEq α] :
    DecidableEq (Except ε α)
  | .error e, .error f =>
    if h : e = f then .isTrue (by rw [h])
    else .isFalse (fun hc => h (Except.error.inj hc))
  | .error _, .ok _ => .isFalse (fun hc => Except.noConfusion hc)
  | .ok _, .error _ => .isFalse (fun hc => Except.noConfusion hc)
  | .ok a, .ok b =>
    if h : a = b then .isTrue (by rw [h])
    else .isFalse (fun hc => h (Except.ok.inj hc))

/-- Python exception classes relevant to the `try/except` clauses of
`websocket.py`. `keyError` is the class caught by the dispatcher;
`typeError` is what tuple-unpacking a `None` raises. -/
inductive Exc where
  | keyError
  | typeError
  | valueError
  | runtimeError
deriving DecidableEq, Repr

/-- The decoded JSON frame passed to `WebSocket.process_data`.  A field is
`none` when the key is absent from the mapping (so that `data[k]` raises
`KeyError`).  The numeric conversion `int(data[..])` is modelled by storing
the guild identifier already parsed as a `Nat`. -/
structure Frame where
  op : Option String
  guildId : Option Nat
  type : Option String
deriving DecidableEq, Repr

/-- Modelled from the spec: the Node statistics snapshot (`wavelink/stats.py`,
class `Stats`, not present under `src/`).  Spec 4.4: processing a `stats`
frame replaces the cached statistics with "a fresh snapshot parsed from the
frame"; the snapshot is modelled as holding the frame it was parsed from. -/
structure Stats where
  raw : Frame
deriving DecidableEq, Repr

/-- The `Node` fields that `websocket.py` reads or writes:
`self._node.players` (guild id to abstract player state),
`self._node.stats`, `self._node.available`. -/
structure NodeState where
  players : List (Nat × Nat)
  stats : Option Stats
  available : Bool
deriving DecidableEq, Repr

/-- A live transport handle (`aiohttp` client websocket): all the code ever
asks of it is whether it is `closed`. -/
structure Conn where
  closed : Bool
deriving DecidableEq, Repr

/-- Errors the handshake (`session.ws_connect`) can raise: an
`aiohttp.WSServerHandshakeError` carrying an HTTP status, or any other
exception. -/
inductive ConnError where
  | wsServerHandshakeError (status : Nat)
  | otherError
deriving DecidableEq, Repr

/-- The mutable state of the `WebSocket` object (plus the node availability
flag it toggles). `task` is whether `self._task` currently holds a handle. -/
structure WSState where
  websocket : Option Conn
  lastExc : Option ConnError
  task : Bool
  closedFlag : Bool
  available : Bool
  autoReconnect : Bool
deriving DecidableEq, Repr

/-- `WebSocket.is_connected`: `self._websocket is not None and not
self._websocket.closed`. -/
def WSState.is_connected (s : WSState) : Bool :=
  match s.websocket with
  | some c => !c.closed
  | none => false

/-- The typed event payloads built by `_get_event_payload` from
`wavelink/events.py` (the payload keeps the frame it was built from). -/
inductive EventPayload where
  | trackEnd (d : Frame)
  | trackStart (d : Frame)
  | trackException (d : Frame)
  | trackStuck (d : Frame)
  | websocketClosed (d : Frame)
deriving DecidableEq, Repr

/-- `WebSocket._get_event_payload`: translate a wire event name into the
dispatch listener name and typed payload.  For the five recognized names it
returns the pair; for any other name the Python function falls off the end
and implicitly returns `None`, modelled as `none`. -/
def get_event_payload (name : String) (data : Frame) :
    Option (String × EventPayload) :=
  if name = "TrackEndEvent" then some ("wavelink_track_end", .trackEnd data)
  else if name = "TrackStartEvent" then some ("wavelink_track_start", .trackStart data)
  else if name = "TrackExceptionEvent" then some ("wavelink_track_exception", .trackException data)
  else if name = "TrackStuckEvent" then some ("wavelink_track_stuck", .trackStuck data)
  else if name = "WebSocketClosedEvent" then some ("wavelink_websocket_closed", .websocketClosed data)
  else none

/-- Replace the state of player `gid` in the players mapping (the effect of
a successful `update_state` call on the stored player object). -/
def updatePlayer (ps : List (Nat × Nat)) (gid : Nat) (v : Nat) :
    List (Nat × Nat) :=
  ps.map fun kv => if kv.1 = gid then (gid, v) else kv

/-- `WebSocket.process_data(data)`.

`upd` is the behavior of the player layer's `update_state` method (external
to this module): given the current abstract player state and the frame it
either returns the new state or raises.

The result is `.error e` when an uncaught exception `e` propagates out of
the coroutine, and otherwise the updated node state together with the list
of `(listener, payload)` pairs passed to `bot.dispatch`.

Faithful details:
* `op = data.get('op', None); if not op: return` — both an absent key and
  a falsy (empty) string return early;
* the `stats` branch is a plain `if`, while `event`/`playerUpdate` form a
  separate `if/elif` chain;
* in the `event` branch only the player lookup
  (`data['player'] = self._node.players[int(data['guildId'])]`) sits in a
  `try/except KeyError: return`; the subsequent `data['type']` subscript is
  outside it, so a missing `type` key raises `KeyError` uncaught, and
  unpacking the `None` returned by `_get_event_payload` for an unknown name
  raises `TypeError`;
* the `bot.dispatch` call is wrapped in `try/except Exception` (subscriber
  failures are printed and absorbed); dispatch itself is modelled as the
  pure act of emitting, which does not raise, so the except arm is inert
  here;
* in the `playerUpdate` branch the whole lookup-and-update expression sits
  in `try/except KeyError: pass`, so a `KeyError` raised by `update_state`
  itself is absorbed exactly like a lookup miss. -/
def process_data (upd : Nat → Frame → Except Exc Nat)
    (node : NodeState) (data : Frame) :
    Except Exc (NodeState × List (String × EventPayload)) :=
  match data.op with
  | none => .ok (node, [])
  | some op =>
    if op = "" then .ok (node, [])
    else
      let node1 := if op = "stats" then { node with stats := some ⟨data⟩ } else node
      if op = "event" then
        match data.guildId with
        | none => .ok (node1, [])
        | some gid =>
          match List.lookup gid node1.players with
          | none => .ok (node1, [])
          | some _player =>
            match data.type with
            | none => .error Exc.keyError
            | some name =>
              match get_event_payload name data with
              | none => .error Exc.typeError
              | some (listener, payload) => .ok (node1, [(listener, payload)])
      else if op = "playerUpdate" then
        match data.guildId with
        | none => .ok (node1, [])
        | some gid =>
          match List.lookup gid node1.players with
          | none => .ok (node1, [])
          | some player =>
            match upd player data with
            | .error Exc.keyError => .ok (node1, [])
            | .error e => .error e
            | .ok p2 => .ok ({ node1 with players := updatePlayer node1.players gid p2 }, [])
      else .ok (node1, [])

/-- Log/print output lines of the connection code (only which branch wrote
is modelled): the prominent stderr print on a 401 handshake rejection, the
`__log__.error` plus traceback print on any other connect failure, and the
debug line after a successful connection. -/
inductive LogLine where
  | authFailurePrint
  | connectionFailureLog
  | connectionEstablishedDebug
deriving DecidableEq, Repr

/-- `isinstance(error, aiohttp.WSServerHandshakeError) and error.status == 401`. -/
def isAuthFailure : ConnError → Bool
  | .wsServerHandshakeError status => status == 401
  | .otherError => false

/-- Result of one `_connect()` call: the new websocket state, the
notifications dispatched (`bot.dispatch` names), the log output, and whether
this call created the pump task. -/
structure ConnectResult where
  state : WSState
  events : List String
  logs : List LogLine
  startedPump : Bool
deriving DecidableEq, Repr

/-- `WebSocket._connect()`.

`hs` is the outcome the transport would give to `session.ws_connect(...)`
if the handshake is attempted; the handshake is attempted only when
`not self.is_connected` (otherwise the existing `self._websocket` is kept).

Faithful details:
* `await self.bot.wait_until_ready()` and the URI construction have no
  effect on the modelled state;
* on a handshake exception: `self._last_exc = error`,
  `self._node.available = False`, then a 401 `WSServerHandshakeError` is
  printed prominently while any other error goes to the error log with a
  traceback, and the coroutine returns;
* otherwise: `if not self._task:` create the `_listen` task (so `task`
  always holds afterwards, and `startedPump` records whether this call
  created it), `self._last_exc = None`, `self._closed = False`,
  `self._node.available = True`, and finally
  `if self.is_connected: self.bot.dispatch('wavelink_node_ready', ...)`. -/
def connect (s : WSState) (hs : Except ConnError Conn) : ConnectResult :=
  match (if s.is_connected then Except.ok s.websocket else hs.map some) with
  | .error e =>
    { state := { s with lastExc := some e, available := false },
      events := [],
      logs := [if isAuthFailure e then .authFailurePrint else .connectionFailureLog],
      startedPump := false }
  | .ok w =>
    let startPump := !s.task
    let s1 : WSState :=
      { s with websocket := w, task := true, lastExc := none,
               closedFlag := false, available := true }
    if s1.is_connected then
      { state := s1, events := ["wavelink_node_ready"],
        logs := [.connectionEstablishedDebug], startedPump := startPump }
    else
      { state := s1, events := [], logs := [], startedPump := startPump }

/-- The value a JSON `dumps` callable can return: Python `str` or `bytes`
(bytes are modelled as a list of byte values). -/
inductive Serialized where
  | str (t : String)
  | bytes (bs : List Nat)
deriving DecidableEq, Repr

/-- The text actually written: a `str` result is sent as is, a `bytes`
result is first decoded (`data_str.decode('utf-8')`, modelled by the
ambient total decoding function). -/
def serializedText (decode : List Nat → String) : Serialized → String
  | .str t => t
  | .bytes bs => decode bs

/-- `WebSocket._send(**data)`: returns the list of text frames written to
the transport.  If `self.is_connected` the payload is serialized with
`self._dumps`, decoded to text if the serializer produced bytes, and written
with one `send_str` call; otherwise the body is skipped entirely — nothing
is serialized, nothing is written, nothing can raise. -/
def send {α : Type} (s : WSState) (dumps : α → Serialized)
    (decode : List Nat → String) (data : α) : List String :=
  if s.is_connected then [serializedText decode (dumps data)]
  else []

/-- Modelled from the spec: the Backoff Generator
(`wavelink/backoff.py`, class `ExponentialBackoff`, not present under
`src/`).  Spec 4.1: `next_delay()` is deterministic given an internal
exponent counter and returns `base^min(exponent, cap)` (base and cap are
tunables; the critical property is monotonic non-decrease up to a maximum);
its only side effect is the counter increment.  A reset operation sets the
counter back to zero. -/
structure ExponentialBackoff where
  base : Nat
  cap : Nat
  exp : Nat
deriving DecidableEq, Repr

/-- Modelled from the spec: the `delay()` call — increment the exponent
counter and return `base^min(exponent, cap)` together with the advanced
state. -/
def ExponentialBackoff.delay (b : ExponentialBackoff) :
    Nat × ExponentialBackoff :=
  (b.base ^ min (b.exp + 1) b.cap, { b with exp := b.exp + 1 })

/-- Modelled from the spec: the reset operation sets the counter back to
zero (so the next delay starts again from the minimum). -/
def ExponentialBackoff.reset (b : ExponentialBackoff) : ExponentialBackoff :=
  { b with exp := 0 }

/-- The backoff instance `_listen` creates: `ExponentialBackoff(base=7)`,
with an unexercised exponent ceiling (a tunable of the spec model) and the
counter at zero. -/
def listenBackoff : ExponentialBackoff := { base := 7, cap := 10, exp := 0 }

/-- One message as seen by `self._websocket.receive()`: a frame whose
`msg.type is aiohttp.WSMsgType.CLOSED`, or a data frame. -/
inductive WSMsg where
  | closed (extra : Option String)
  | data (frame : Frame)
deriving DecidableEq, Repr

/-- The observable effect of one iteration of the `_listen` loop. -/
structure ListenResult where
  state : WSState
  backoff : ExponentialBackoff
  events : List String
  sleptDelay : Option Nat
  scheduledConnect : Bool
  scheduledFrame : Option Frame
  terminated : Bool
deriving DecidableEq, Repr

/-- One iteration of `WebSocket._listen` acting on the received message.

On a CLOSE message: set `self._closed = True`; if auto-reconnect is off,
dispatch `'wavelink_node_connection_closed'`, cancel the task (exceptions
from the cancel swallowed by the bare `except: pass`), clear `self._task`,
and return out of the loop.  If auto-reconnect is on, take
`retry = backoff.delay()`, sleep that long, and schedule a `_connect()`
task when `not self.is_connected` still holds.

On any other message: log the payload and schedule a `process_data` task
with the decoded frame; the loop neither waits for it nor can be terminated
by it. -/
def listen_step (s : WSState) (b : ExponentialBackoff) (msg : WSMsg) :
    ListenResult :=
  match msg with
  | .closed _extra =>
    let s1 := { s with closedFlag := true }
    if !s1.autoReconnect then
      { state := { s1 with task := false }, backoff := b,
        events := ["wavelink_node_connection_closed"],
        sleptDelay := none, scheduledConnect := false,
        scheduledFrame := none, terminated := true }
    else
      let d := b.delay
      { state := s1, backoff := d.2,
        events := [],
        sleptDelay := some d.1,
        scheduledConnect := !s1.is_connected,
        scheduledFrame := none, terminated := false }
  | .data f =>
    { state := s, backoff := b, events := [],
      sleptDelay := none, scheduledConnect := false,
      scheduledFrame := some f, terminated := false }

/-- A fresh, open connection as produced by a successful handshake. -/
def freshConn : Conn := { closed := false }

/-- One observation in a reconnect history: the pump sees a transport
closure, or a scheduled `_connect()` task completes successfully. -/
inductive PumpObs where
  | closure
  | reconnectSuccess
deriving DecidableEq, Repr

/-- Number of closures in an observation history. -/
def countClosures : List PumpObs → Nat
  | [] => 0
  | .closure :: t => countClosures t + 1
  | .reconnectSuccess :: t => countClosures t

/-- The backoff delays slept before successive reconnect attempts, along an
observation history.  A closure is handled by the `_listen` iteration
(which consumes a delay from the loop-local backoff object created once per
`_listen` invocation); a successful reconnect runs `_connect`, which
updates the websocket state but contains no operation on the backoff object
local to `_listen`, so the generator state is passed through unchanged. -/
def pump_delays (s : WSState) (b : ExponentialBackoff) :
    List PumpObs → List Nat
  | [] => []
  | .closure :: t =>
    let r := listen_step s b (.closed none)
    if r.terminated then []
    else r.sleptDelay.toList ++ pump_delays r.state r.backoff t
  | .reconnectSuccess :: t =>
    pump_delays (connect s (.ok freshConn)).state b t

/-- The successive delays the backoff generator yields over `n` calls when
never reset in between. -/
def delaysFrom (b : ExponentialBackoff) : Nat → List Nat
  | 0 => []
  | n + 1 => b.delay.1 :: delaysFrom b.delay.2 n

/-- A websocket state whose transport just closed, auto-reconnect on. -/
def samplePump : WSState :=
  { websocket := some { closed := true }, lastExc := none, task := true,
    closedFlag := false, available := true, autoReconnect := true }

/-- A disconnected websocket state (no transport handle). -/
def sampleDisconnected : WSState :=
  { websocket := none, lastExc := none, task := false,
    closedFlag := true, available := false, autoReconnect := true }

/-- A live, connected websocket state. -/
def sampleConnected : WSState :=
  { websocket := some freshConn, lastExc := none, task := true,
    closedFlag := false, available := true, autoReconnect := true }

/-- A live websocket state configured with auto-reconnect disabled. -/
def sampleNoReconnect : WSState :=
  { websocket := some freshConn, lastExc := none, task := true,
    closedFlag := false, available := true, autoReconnect := false }

/-- A node with one player registered under guild id 42. -/
def node0 : NodeState :=
  { players := [(42, 0)], stats := none, available := true }

/-- An `update_state` behavior that always succeeds, bumping the abstract
player state. -/
def updOk : Nat → Frame → Except Exc Nat := fun p _ => .ok (p + 1)

/-- An `update_state` behavior that raises `KeyError`. -/
def updKeyErr : Nat → Frame → Except Exc Nat := fun _ _ => .error .keyError

/-- An `update_state` behavior that raises an exception that is not a
`KeyError`. -/
def updRuntimeErr : Nat → Frame → Except Exc Nat :=
  fun _ _ => .error .runtimeError

/-- An `event` frame for a registered guild whose `type` is none of the
five recognized event names. -/
def frameUnknownEvent : Frame :=
  { op := some "event", guildId := some 42, type := some "UnknownEvent" }

/-- A `playerUpdate` frame for the registered guild 42. -/
def framePlayerUpdate : Frame :=
  { op := some "playerUpdate", guildId := some 42, type := none }

/-- A `playerUpdate` frame whose guild id has no registered player. -/
def framePlayerUpdateMiss : Frame :=
  { op := some "playerUpdate", guildId := some 99, type := none }

/-- A `stats` frame. -/
def frameStats : Frame :=
  { op := some "stats", guildId := none, type := none }

/-- A serializer and a byte decoder for exercising `send` concretely. -/
def sampleDumps : Nat → Serialized := fun _ => .str "payload"

/-- A total byte-decoding function standing in for `bytes.decode`. -/
def sampleDecode : List Nat → String := fun _ => ""

/-- `_connect` never touches the `auto_reconnect` configuration flag. -/
theorem connect_autoReconnect (s : WSState) (hs : Except ConnError Conn) :
    (connect s hs).state.autoReconnect = s.autoReconnect := by
  unfold connect
  split
  · rfl
  · dsimp only
    split <;> rfl

/-- With auto-reconnect enabled, the delays slept along an observation
history are exactly the successive outputs of the loop-local backoff
generator, one per closure: a completed `_connect` never resets it. -/
theorem pump_delays_closures (t : List PumpObs) :
    ∀ (s : WSState) (b : ExponentialBackoff), s.autoReconnect = true →
      pump_delays s b t = delaysFrom b (countClosures t) := by
  induction t with
  | nil => intro s b _; rfl
  | cons o t ih =>
    intro s b ha
    cases o with
    | closure =>
      simp [pump_delays, listen_step, ha, countClosures, delaysFrom]
      exact ih _ _ rfl
    | reconnectSuccess =>
      have ha' : (connect s (.ok freshConn)).state.autoReconnect = true := by
        rw [connect_autoReconnect]; exact ha
      simpa [pump_delays, countClosures] using ih _ _ ha'

/-- When the base is at least 1, the un-reset backoff delays are
non-decreasing. -/
theorem delaysFrom_chain (n : Nat) :
    ∀ (b : ExponentialBackoff), 1 ≤ b.base →
      List.Chain' (· ≤ ·) (delaysFrom b n) := by
  induction n with
  | zero => intro b _; simp [delaysFrom]
  | succ n ih =>
    intro b hb
    rcases n with _ | m
    · simp [delaysFrom]
    · have hchain := ih b.delay.2 (by simpa [ExponentialBackoff.delay] using hb)
      rw [delaysFrom]
      refine (List.chain'_cons').mpr ⟨?_, hchain⟩
      intro y hy
      rw [delaysFrom] at hy
      simp only [Option.mem_def, List.head?_cons, Option.some.injEq] at hy
      subst hy
      simp only [ExponentialBackoff.delay]
      exact Nat.pow_le_pow_right hb (min_le_min (by omega) le_rfl)

/-- C1 (counterexample): with auto-reconnect on, after a closure (delay 7),
a successful reconnection and a second closure, the delay before the next
reconnect attempt is 49, while a freshly reset backoff state would give the
minimum 7 — so the backoff state is not reset by a successful
reconnection, contradicting the claim. -/
theorem C1_no_reset_counterexample :
    pump_delays samplePump listenBackoff
        [PumpObs.closure, PumpObs.reconnectSuccess, PumpObs.closure] = [7, 49] ∧
    (ExponentialBackoff.reset listenBackoff).delay.1 = 7 ∧
    (49 : Nat) ≠ 7 := by decide

/-- C1 (amended): with auto-reconnect enabled, the backoff delay taken
before each successive reconnect attempt is non-decreasing; however the
backoff state persists across successful reconnections — the delays along
any observation history are exactly the successive outputs of the
loop-local generator, one per closure, regardless of interleaved successful
reconnects (the generator is created once per `_listen` invocation and
`_connect` never resets it). -/
theorem C1_delays_monotone (s : WSState) (b : ExponentialBackoff)
    (t : List PumpObs) (ha : s.autoReconnect = true) (hb : 1 ≤ b.base) :
    pump_delays s b t = delaysFrom b (countClosures t) ∧
    List.Chain' (· ≤ ·) (pump_delays s b t) := by
  have h := pump_delays_closures t s b ha
  exact ⟨h, h ▸ delaysFrom_chain (countClosures t) b hb⟩

theorem C1_delays_monotone_witness :
    samplePump.autoReconnect = true ∧ 1 ≤ listenBackoff.base ∧
    (pump_delays samplePump listenBackoff
        [PumpObs.closure, PumpObs.reconnectSuccess, PumpObs.closure] =
       delaysFrom listenBackoff
         (countClosures [PumpObs.closure, PumpObs.reconnectSuccess, PumpObs.closure]) ∧
     List.Chain' (· ≤ ·)
       (pump_delays samplePump listenBackoff
         [PumpObs.closure, PumpObs.reconnectSuccess, PumpObs.closure])) :=
  ⟨by decide, by decide,
   C1_delays_monotone samplePump listenBackoff
     [PumpObs.closure, PumpObs.reconnectSuccess, PumpObs.closure]
     (by decide) (by decide)⟩

/-- C2: an `event` frame whose guild lookup succeeds but whose `type` is
not one of the five recognized event names.  The translation table returns
`None`; unpacking it raises `TypeError`, so `process_data` raises instead
of silently emitting nothing — no event is emitted, and the pump itself
survives (the frame was handed to a separate task), but the processing
coroutine dies with an uncaught exception, contradicting the stated
forward-compatibility policy. -/
theorem C2_unknown_event_type_raises :
    get_event_payload "UnknownEvent" frameUnknownEvent = none ∧
    process_data updOk node0 frameUnknownEvent = .error Exc.typeError ∧
    (listen_step sampleConnected listenBackoff
        (WSMsg.data frameUnknownEvent)).terminated = false := by decide

/-- C3 (counterexample): when the target session's `update_state` raises a
`KeyError`, the dispatcher's `except KeyError: pass` absorbs it — the
exception does not propagate out of `process_data`, contradicting the claim
that only the session-lookup miss is absorbed. -/
theorem C3_keyerror_absorbed_counterexample :
    updKeyErr 0 framePlayerUpdate = .error Exc.keyError ∧
    List.lookup 42 node0.players = some 0 ∧
    process_data updKeyErr node0 framePlayerUpdate = .ok (node0, []) ∧
    process_data updKeyErr node0 framePlayerUpdate ≠ .error Exc.keyError := by
  refine ⟨rfl, rfl, rfl, ?_⟩
  decide

/-- C3 (amended): for a `playerUpdate` frame whose session lookup succeeds,
any exception raised by the session's `update_state` call other than a
`KeyError` propagates out of `process_data`; a `KeyError` raised by the
call is absorbed by the same handler that absorbs the lookup miss. -/
theorem C3_update_exc_propagates (upd : Nat → Frame → Except Exc Nat)
    (node : NodeState) (f : Frame) (gid p : Nat) (e : Exc)
    (hop : f.op = some "playerUpdate")
    (hg : f.guildId = some gid)
    (hp : List.lookup gid node.players = some p)
    (hu : upd p f = .error e)
    (he : e ≠ Exc.keyError) :
    process_data upd node f = .error e := by
  cases e with
  | keyError => exact absurd rfl he
  | typeError => simp [process_data, hop, hg, hp, hu]
  | valueError => simp [process_data, hop, hg, hp, hu]
  | runtimeError => simp [process_data, hop, hg, hp, hu]

theorem C3_update_exc_propagates_witness :
    framePlayerUpdate.op = some "playerUpdate" ∧
    framePlayerUpdate.guildId = some 42 ∧
    List.lookup 42 node0.players = some 0 ∧
    updRuntimeErr 0 framePlayerUpdate = .error Exc.runtimeError ∧
    Exc.runtimeError ≠ Exc.keyError ∧
    process_data updRuntimeErr node0 framePlayerUpdate = .error Exc.runtimeError :=
  ⟨rfl, rfl, rfl, rfl, by decide,
   C3_update_exc_propagates updRuntimeErr node0 framePlayerUpdate 42 0
     Exc.runtimeError rfl rfl rfl rfl (by decide)⟩

/-- C4: a `playerUpdate` frame whose guild id maps to no known session is
dropped by the `except KeyError: pass` handler: `process_data` returns
normally (no exception propagates), the node state — including every
session's state — is returned unchanged, and no event is emitted. -/
theorem C4_unknown_session_noop (upd : Nat → Frame → Except Exc Nat)
    (node : NodeState) (f : Frame) (gid : Nat)
    (hop : f.op = some "playerUpdate")
    (hg : f.guildId = some gid)
    (hmiss : List.lookup gid node.players = none) :
    process_data upd node f = .ok (node, []) := by
  simp [process_data, hop, hg, hmiss]

theorem C4_unknown_session_noop_witness :
    framePlayerUpdateMiss.op = some "playerUpdate" ∧
    framePlayerUpdateMiss.guildId = some 99 ∧
    List.lookup 99 node0.players = none ∧
    process_data updOk node0 framePlayerUpdateMiss = .ok (node0, []) :=
  ⟨rfl, rfl, rfl,
   C4_unknown_session_noop updOk node0 framePlayerUpdateMiss 99 rfl rfl rfl⟩

/-- C5: `_send` is gated on `is_connected`.  While disconnected the body is
skipped — nothing is serialized, nothing is written to the transport and no
exception can arise; while connected the payload is serialized (bytes
output decoded to text) and written as exactly one text frame. -/
theorem C5_send_gated {α : Type} (s : WSState) (dumps : α → Serialized)
    (decode : List Nat → String) (d : α) :
    (s.is_connected = false → send s dumps decode d = []) ∧
    (s.is_connected = true →
       send s dumps decode d = [serializedText decode (dumps d)]) := by
  constructor <;> intro h <;> simp [send, h]

theorem C5_send_gated_witness :
    send sampleDisconnected sampleDumps sampleDecode 0 = [] ∧
    send sampleConnected sampleDumps sampleDecode 0 =
      [serializedText sampleDecode (sampleDumps 0)] :=
  ⟨(C5_send_gated sampleDisconnected sampleDumps sampleDecode 0).1 (by decide),
   (C5_send_gated sampleConnected sampleDumps sampleDecode 0).2 (by decide)⟩

/-- C6: when the pump receives a CLOSED message and auto-reconnect is
disabled it dispatches exactly one `wavelink_node_connection_closed`
notification, clears the task handle, schedules no reconnect, sleeps no
backoff delay, and terminates. -/
theorem C6_close_terminal (s : WSState) (b : ExponentialBackoff)
    (extra : Option String) (h : s.autoReconnect = false) :
    listen_step s b (WSMsg.closed extra) =
      { state := { s with closedFlag := true, task := false }, backoff := b,
        events := ["wavelink_node_connection_closed"],
        sleptDelay := none, scheduledConnect := false,
        scheduledFrame := none, terminated := true } := by
  simp [listen_step, h]

theorem C6_close_terminal_witness :
    sampleNoReconnect.autoReconnect = false ∧
    listen_step sampleNoReconnect listenBackoff (WSMsg.closed none) =
      { state := { sampleNoReconnect with closedFlag := true, task := false },
        backoff := listenBackoff,
        events := ["wavelink_node_connection_closed"],
        sleptDelay := none, scheduledConnect := false,
        scheduledFrame := none, terminated := true } :=
  ⟨by decide,
   C6_close_terminal sampleNoReconnect listenBackoff none (by decide)⟩

/-- C7: a `connect()` call that attempts the handshake (not already
connected) and succeeds, receiving an open connection: afterwards
`is_connected` is true, the node is available, the last-failure record is
cleared, the task handle is set, the pump task was created exactly when it
was not already running, and `wavelink_node_ready` is dispatched exactly
once. -/
theorem C7_connect_success (s : WSState) (c : Conn)
    (hnc : s.is_connected = false) (hopen : c.closed = false) :
    (connect s (.ok c)).state.is_connected = true ∧
    (connect s (.ok c)).state.available = true ∧
    (connect s (.ok c)).state.lastExc = none ∧
    (connect s (.ok c)).state.task = true ∧
    (connect s (.ok c)).startedPump = !s.task ∧
    (connect s (.ok c)).events = ["wavelink_node_ready"] := by
  simp only [WSState.is_connected] at hnc
  simp [connect, WSState.is_connected, hnc, hopen, Except.map]

theorem C7_connect_success_witness :
    sampleDisconnected.is_connected = false ∧ freshConn.closed = false ∧
    ((connect sampleDisconnected (.ok freshConn)).state.is_connected = true ∧
     (connect sampleDisconnected (.ok freshConn)).state.available = true ∧
     (connect sampleDisconnected (.ok freshConn)).state.lastExc = none ∧
     (connect sampleDisconnected (.ok freshConn)).state.task = true ∧
     (connect sampleDisconnected (.ok freshConn)).startedPump = !sampleDisconnected.task ∧
     (connect sampleDisconnected (.ok freshConn)).events = ["wavelink_node_ready"]) :=
  ⟨by decide, by decide,
   C7_connect_success sampleDisconnected freshConn (by decide) (by decide)⟩

/-- C8: a `connect()` call whose handshake raises: the failure is recorded
in `_last_exc`, the node is marked unavailable, the websocket handle and
pump task are untouched, no notification is dispatched, no pump is started,
and the log output distinguishes a 401 handshake rejection (prominent
stderr print) from every other failure (error log with traceback); the
coroutine returns without retrying. -/
theorem C8_connect_failure (s : WSState) (e : ConnError)
    (hnc : s.is_connected = false) :
    (connect s (.error e)).state.lastExc = some e ∧
    (connect s (.error e)).state.available = false ∧
    (connect s (.error e)).state.websocket = s.websocket ∧
    (connect s (.error e)).state.task = s.task ∧
    (connect s (.error e)).events = [] ∧
    (connect s (.error e)).startedPump = false ∧
    (connect s (.error e)).logs =
      [if isAuthFailure e then LogLine.authFailurePrint
       else LogLine.connectionFailureLog] := by
  simp only [WSState.is_connected] at hnc
  simp [connect, WSState.is_connected, hnc, Except.map]

theorem C8_connect_failure_witness :
    sampleDisconnected.is_connected = false ∧
    ((connect sampleDisconnected (.error (ConnError.wsServerHandshakeError 401))).state.lastExc =
        some (ConnError.wsServerHandshakeError 401) ∧
     (connect sampleDisconnected (.error (ConnError.wsServerHandshakeError 401))).state.available = false ∧
     (connect sampleDisconnected (.error (ConnError.wsServerHandshakeError 401))).state.websocket =
        sampleDisconnected.websocket ∧
     (connect sampleDisconnected (.error (ConnError.wsServerHandshakeError 401))).state.task =
        sampleDisconnected.task ∧
     (connect sampleDisconnected (.error (ConnError.wsServerHandshakeError 401))).events = [] ∧
     (connect sampleDisconnected (.error (ConnError.wsServerHandshakeError 401))).startedPump = false ∧
     (connect sampleDisconnected (.error (ConnError.wsServerHandshakeError 401))).logs =
       [if isAuthFailure (ConnError.wsServerHandshakeError 401) then LogLine.authFailurePrint
        else LogLine.connectionFailureLog]) :=
  ⟨by decide,
   C8_connect_failure sampleDisconnected (ConnError.wsServerHandshakeError 401) (by decide)⟩

/-- C9: a `stats` frame replaces the node's cached statistics with a
snapshot parsed from that frame, emits zero events, and leaves the players
mapping and the availability flag unchanged. -/
theorem C9_stats_frame (upd : Nat → Frame → Except Exc Nat)
    (node : NodeState) (f : Frame) (hop : f.op = some "stats") :
    process_data upd node f =
      .ok ({ node with stats := some { raw := f } }, []) ∧
    ({ node with stats := some { raw := f } } : NodeState).players = node.players ∧
    ({ node with stats := some { raw := f } } : NodeState).available = node.available := by
  refine ⟨?_, rfl, rfl⟩
  simp [process_data, hop]

theorem C9_stats_frame_witness :
    frameStats.op = some "stats" ∧
    (process_data updOk node0 frameStats =
       .ok ({ node0 with stats := some { raw := frameStats } }, []) ∧
     ({ node0 with stats := some { raw := frameStats } } : NodeState).players = node0.players ∧
     ({ node0 with stats := some { raw := frameStats } } : NodeState).available = node0.available) :=
  ⟨rfl, C9_stats_frame updOk node0 frameStats rfl⟩

/-- C10: calling `_connect()` while a live unclosed connection exists skips
the handshake and keeps the existing websocket handle, yet still marks the
node available and dispatches another `wavelink_node_ready` notification —
node-ready can fire more than once per live connection. -/
theorem C10_connect_while_connected (s : WSState)
    (hs : Except ConnError Conn) (hc : s.is_connected = true) :
    (connect s hs).state.websocket = s.websocket ∧
    (connect s hs).state.available = true ∧
    (connect s hs).events = ["wavelink_node_ready"] := by
  obtain ⟨c, hw, hcl⟩ : ∃ c, s.websocket = some c ∧ c.closed = false := by
    revert hc
    unfold WSState.is_connected
    cases s.websocket with
    | none => intro h; cases h
    | some c => intro h; exact ⟨c, rfl, by simpa using h⟩
  simp [connect, WSState.is_connected, hc, hw, hcl]

theorem C10_connect_while_connected_witness :
    sampleConnected.is_connected = true ∧
    ((connect sampleConnected (.error ConnError.otherError)).state.websocket =
        sampleConnected.websocket ∧
     (connect sampleConnected (.error ConnError.otherError)).state.available = true ∧
     (connect sampleConnected (.error ConnError.otherError)).events = ["wavelink_node_ready"]) :=
  ⟨by decide,
   C10_connect_while_connected sampleConnected (.error ConnError.otherError) (by decide)⟩

end Wavelink
